import Mathlib

/-!
Shallow embedding of the qtalk-go repository (mux session layer and rpc
responder/caller layer), translated from `src/mux/session.go` and the rpc
source in `src/unnamed/part_000`.  The transport encoder is modelled as an
infallible in-memory sink: `Encode` returns the frame that was written
instead of an I/O error.  Concurrency rendezvous (`select` outcomes, context
cancellation, inbox delivery) are modelled as explicit oracle parameters.
-/

namespace mux

/-- Wire constants from `src/mux/session.go` lines 14-28. -/
def minPacketLength : Nat := 9

/-- `maxPacketLength = 1 << 31` from `src/mux/session.go` line 16. -/
def maxPacketLength : Nat := 2 ^ 31

/-- `channelMaxPacket = 1 << 24` from `src/mux/session.go` line 20. -/
def channelMaxPacket : Nat := 2 ^ 24

/-- `channelWindowSize = 64 * channelMaxPacket` from `src/mux/session.go` line 22. -/
def channelWindowSize : Nat := 64 * channelMaxPacket

/-- Channel direction, from the `channelDirection` values used in
`src/mux/session.go` (`channelInbound`, `channelOutbound`). -/
inductive channelDirection where
  | channelInbound
  | channelOutbound
deriving DecidableEq, Repr

/-- Modelled from the spec: the frame messages of §3 of the spec (the
`frame` package is not under `src/`); field names follow the spec's
`Open{ sender_id, window_size, max_packet_size }` etc. -/
inductive Frame where
  | openMsg (senderID windowSize maxPacketSize : Nat)
  | openConfirm (channelID senderID windowSize maxPacketSize : Nat)
  | openFailure (channelID : Nat)
deriving DecidableEq, Repr

/-- The per-channel state of `channel` as set up by `session.newChannel`
(`src/mux/session.go` lines 138-150) and `handleOpen`/`Open`. -/
structure channel where
  localId : Nat
  remoteId : Nat := 0
  direction : channelDirection
  myWindow : Nat
  remoteWin : Nat := 0
  maxIncomingPayload : Nat := 0
  maxRemotePayload : Nat := 0
deriving DecidableEq, Repr

/-- Modelled from the spec: `chanList.add` "assigns the lowest free id"
(§4.3 of the spec; the `chanList` code is not under `src/`).  Returns the
smallest id not already used by the table. -/
def lowestFreeId (ids : List Nat) : Nat :=
  match (List.range (ids.length + 1)).filter (fun n => !ids.contains n) with
  | [] => ids.length
  | n :: _ => n

/-- Session state: the channel table plus teardown flags.  The table maps
`local_id → channel` (spec §4.3); `err` is the terminating error stored for
`Wait`, `closeSignaled` models `closeCh`, `transportClosed` models `t.Close()`. -/
structure sessionState where
  chans : List channel := []
  transportClosed : Bool := false
  closeSignaled : Bool := false
  err : Option String := none
deriving DecidableEq, Repr

/-- `session.newChannel` (`src/mux/session.go` lines 138-150): builds a
channel with `myWindow = channelWindowSize`, adds it to the table via
`chans.add` (which assigns the lowest free id), returns the channel. -/
def newChannel (st : sessionState) (dir : channelDirection) :
    sessionState × channel :=
  let id := lowestFreeId (st.chans.map (·.localId))
  let ch : channel := { localId := id, direction := dir, myWindow := channelWindowSize }
  ({ st with chans := st.chans ++ [ch] }, ch)

/-- `session.handleOpen` (`src/mux/session.go` lines 197-223).  The
`accepted` oracle tells which arm of the `select` fires: `true` when an
`Accept` consumes the channel from the inbox within the 30 s `openTimeout`,
`false` when the timer fires first.  Returns the new session state and the
frame encoded in reply.  Note the validation is
`MaxPacketSize < minPacketLength || MaxPacketSize > maxPacketLength`
(strict `>`), and the timeout arm only encodes `OpenFailure` — it does not
remove the channel from the table. -/
def handleOpen (st : sessionState) (senderID windowSize maxPacketSize : Nat)
    (accepted : Bool) : sessionState × Frame :=
  if maxPacketSize < minPacketLength ∨ maxPacketSize > maxPacketLength then
    (st, .openFailure senderID)
  else
    let (st1, c0) := newChannel st .channelInbound
    let c : channel := { c0 with
      remoteId := senderID
      maxRemotePayload := maxPacketSize
      remoteWin := c0.remoteWin + windowSize
      maxIncomingPayload := channelMaxPacket }
    let st2 : sessionState :=
      { st1 with chans := st1.chans.map (fun x => if x.localId = c.localId then c else x) }
    if accepted then
      (st2, .openConfirm c.remoteId c.localId c.myWindow c.maxIncomingPayload)
    else
      (st2, .openFailure senderID)

/-- Errors produced by the session and rpc layers.  `ctxErr s` stands for
whatever error the context reports (cancellation or deadline), carried so
that "returned verbatim" is expressible. -/
inductive GoErr where
  | eof
  | errClosed
  | openFailedRemote
  | unexpectedPacket
  | ctxErr (s : String)
  | remoteErr (s : String)
  | other (s : String)
deriving DecidableEq, Repr

/-- Outcome of the `select` in `session.Open` (`src/mux/session.go` lines
117-126): either `ctx.Done()` fires first (carrying the context's error),
or a message arrives on `ch.msg` (`none` models the Go `nil` message sent
when the channel is closed before a response). -/
inductive openOutcome where
  | ctxDone (e : GoErr)
  | recv (m : Option Frame)
deriving DecidableEq, Repr

/-- `session.Open` (`src/mux/session.go` lines 103-136): allocates an
outbound channel with `maxIncomingPayload = channelMaxPacket`, encodes an
`Open` frame, then waits on the select.  Returns the new state, the frame
sent, and either the channel or the error the Go code returns. -/
def sessionOpen (st : sessionState) (outcome : openOutcome) :
    sessionState × Frame × Except GoErr channel :=
  let (st1, c0) := newChannel st .channelOutbound
  let ch : channel := { c0 with maxIncomingPayload := channelMaxPacket }
  let st2 : sessionState :=
    { st1 with chans := st1.chans.map (fun x => if x.localId = ch.localId then ch else x) }
  let sent : Frame := .openMsg ch.localId ch.myWindow ch.maxIncomingPayload
  match outcome with
  | .ctxDone e => (st2, sent, .error e)
  | .recv none => (st2, sent, .error .errClosed)
  | .recv (some m) =>
    match m with
    | .openConfirm _ _ _ _ => (st2, sent, .ok ch)
    | .openFailure _ => (st2, sent, .error .openFailedRemote)
    | _ => (st2, sent, .error .unexpectedPacket)

/-- Outcome of the `select` in `session.Accept` (`src/mux/session.go`
lines 93-100): a channel arrives on the inbox, or `closeCh` fires. -/
inductive acceptOutcome where
  | inboxCh (c : channel)
  | closeFired
deriving DecidableEq, Repr

/-- `session.Accept` (`src/mux/session.go` lines 93-100): returns the
channel from the inbox, or `io.EOF` when the close channel fires. -/
def sessionAccept : acceptOutcome → Except GoErr channel
  | .inboxCh c => .ok c
  | .closeFired => .error .eof

/-- Teardown events, in the order `session.loop` performs them after
`onePacket` returns an error (`src/mux/session.go` lines 160-170). -/
inductive teardownEvent where
  | chanClose (id : Nat)
  | transportClose
  | signalClose
  | storeErr
deriving DecidableEq, Repr

/-- The exit sequence of `session.loop` (`src/mux/session.go` lines
154-171): `chans.dropAll()` empties the table and each dropped channel's
`close()` runs; then `t.Close()`, then `closeCh <- true`, then the error is
stored under the condition variable's lock and broadcast.  `dropAll` is
modelled from the spec: "`drop_all` empties the table atomically" (§4.3). -/
def loopExit (st : sessionState) (e : String) :
    sessionState × List teardownEvent :=
  let evts := st.chans.map (fun c => teardownEvent.chanClose c.localId)
      ++ [teardownEvent.transportClose, teardownEvent.signalClose, teardownEvent.storeErr]
  ({ st with chans := [], transportClosed := true, closeSignaled := true,
             err := some e }, evts)

/-- `session.Wait` (`src/mux/session.go` lines 83-90): blocks until `err`
is non-nil and returns it; modelled on a state where the loop has exited. -/
def sessionWait (st : sessionState) : Option String := st.err

/-- The result of `mux.New` (`src/mux/session.go` lines 59-73) for a
non-nil transport: the fresh session state and whether `go s.loop()` was
started. -/
structure sessionInit where
  st : sessionState
  loopStarted : Bool
deriving DecidableEq, Repr

/-- `mux.New` (`src/mux/session.go` lines 59-73).  The transport is
modelled as `Option Nat`: `none` is the Go `nil` transport, for which `New`
returns `nil` before constructing anything or starting the loop. -/
def New : Option Nat → Option sessionInit
  | none => none
  | some _ => some { st := {}, loopStarted := true }

end mux

namespace rpc

/-- A Go `any` value passed to `Return`/`Continue`/`Send`.  `goNil` is the
nil interface value; `goErr m` is a non-nil value whose dynamic type
implements `error` with message `m` (so the type assertion
`values[0].(error)` succeeds exactly on `goErr`); `goVal n` is any other
value. -/
inductive GoVal where
  | goNil
  | goErr (m : String)
  | goVal (n : Nat)
deriving DecidableEq, Repr

/-- `ResponseHeader` from the rpc source: `Error *string` and
`Continue bool`. -/
structure ResponseHeader where
  error : Option String := none
  cont : Bool := false
deriving DecidableEq, Repr

/-- The `responder` struct from the rpc source: `responded bool`, the
header it will send, and the channel (as an id). -/
structure responder where
  responded : Bool := false
  header : ResponseHeader := {}
  ch : Nat := 0
deriving DecidableEq, Repr

/-- One item encoded over the channel by the responder: the response
header or a framed value. -/
inductive Sent where
  | header (h : ResponseHeader)
  | value (v : GoVal)
deriving DecidableEq, Repr

/-- `responder.respond(values, continue_)` from the rpc source (part_000
lines 116-154), with the encoder modelled as an in-memory sink.  Returns
the updated responder, the list of items encoded over the channel in
order, and whether `r.ch.Close()` was called.  Mirrors the source: set
`responded` and `header.Continue`; if `values` is a single error, replace
`values` with `[nil]` and put the message in `header.Error`; send the
header; if `values` is empty substitute `[nil]`; send each value; close
the channel iff not `continue_`. -/
def respond (r : responder) (values : List GoVal) (continue_ : Bool) :
    responder × List Sent × Bool :=
  let header0 : ResponseHeader := { r.header with cont := continue_ }
  let (values1, header1) :=
    match values with
    | [GoVal.goErr m] => ([GoVal.goNil], { header0 with error := some m })
    | _ => (values, header0)
  let values2 := if values1 = [] then [GoVal.goNil] else values1
  ({ r with responded := true, header := header1 },
   Sent.header header1 :: values2.map Sent.value,
   !continue_)

/-- `responder.Return(v...)` = `respond(v, false)` (part_000 lines 108-110). -/
def Return (r : responder) (v : List GoVal) : responder × List Sent × Bool :=
  respond r v false

/-- `responder.Continue(v...)` = `(r.ch, respond(v, true))` (part_000
lines 112-114): the channel is handed back to the handler. -/
def Continue (r : responder) (v : List GoVal) :
    Nat × responder × List Sent × Bool :=
  (r.ch, respond r v true)

/-- `responder.Send(v)` (part_000 lines 104-106): encodes `v` over the
channel unconditionally — the body is a single `Encode` call with no check
of the responder's state.  `none` would model a rejected send; the code
never rejects. -/
def rSend (_ : responder) (v : GoVal) : Option (List Sent) :=
  some [Sent.value v]

/-- The test `len(values) == 1 && values[0].(error) succeeds` from
`responder.respond` (part_000 lines 122-127): whether the argument list is
a single error value, triggering the `[nil]`-substitution. -/
def isSingleError : List GoVal → Bool
  | [GoVal.goErr _] => true
  | _ => false

/-- The responder state machine's state, derived from the struct: it is
`continued` when a response was initiated with `header.Continue = true`. -/
def isContinued (r : responder) : Bool :=
  r.responded && r.header.cont

/-- The tail of `Server.respond` (part_000 lines 250-257): after the
handler returns, if the responder never responded, `resp.Return()` is
auto-issued; then if `header.Continue` is false the channel is closed.
Returns the items encoded by this epilogue and whether the channel ends up
closed. -/
def serverFinish (r : responder) : List Sent × Bool :=
  let (r1, sent) :=
    if !r.responded then
      let (r2, s, _) := Return r []
      (r2, s)
    else (r, [])
  (sent, !r1.header.cont)

/-- How `Server.Respond` (part_000 lines 195-217) starts: it panics with
"rpc.Respond: nil codec" when the codec is nil, before the Accept loop;
otherwise it enters the Accept loop. -/
inductive respondStart where
  | panicked (msg : String)
  | acceptLoop
deriving DecidableEq, Repr

/-- The codec-nil guard of `Server.Respond` (part_000 lines 198-200): with
a nil codec it panics before any `sess.Accept()` call; with a non-nil
codec it proceeds to the Accept loop. -/
def serverRespondStart (codecIsNil : Bool) : respondStart :=
  if codecIsNil then .panicked "rpc.Respond: nil codec" else .acceptLoop

/-- `Server.Call` (part_000 lines 258-279).  `openRes` is the result of
`sess.Open(ctx)`.  `ctxCancelled` is the oracle for whether the context is
cancelled before the call completes (so `ctx.Done()` fires in the watcher
goroutine and `ctx.Err()` is non-nil at the final check, reporting
`ctxE`).  `callResp`/`callErr` model what the inner `call` returns.
Result: the response, the error `Server.Call` returns, and whether the
watcher called `ch.Close()`. -/
def serverCall (openRes : Except mux.GoErr Nat) (ctxCancelled : Bool)
    (ctxE : String) (callResp : Option Nat) (callErr : Option mux.GoErr) :
    Option Nat × Option mux.GoErr × Bool :=
  match openRes with
  | .error e => (none, some e, false)
  | .ok _ =>
    if ctxCancelled then (callResp, some (.ctxErr ctxE), true)
    else (callResp, callErr, false)

end rpc

section Claims

/-- Claim C1, counterexample: the claim states that an inbound `Open` with
`max_packet_size` exactly `2 ^ 31` is rejected with `OpenFailure` and no
channel is created.  On the code the validation is strict
(`MaxPacketSize > maxPacketLength`), so at `2 ^ 31` the open is accepted:
the reply is `OpenConfirm` (when `Accept` consumes it) and an inbound
channel is added to the table. -/
theorem C1_counterexample :
    (2 ^ 31 ≥ 2 ^ 31) ∧
    (mux.handleOpen {} 5 0 (2 ^ 31) true).2 =
      mux.Frame.openConfirm 5 0 mux.channelWindowSize mux.channelMaxPacket ∧
    (mux.handleOpen {} 5 0 (2 ^ 31) true).1.chans ≠ [] := by
  refine ⟨le_refl _, ?_, ?_⟩ <;> decide

/-- Claim C1, amended: an inbound `Open` is rejected — `OpenFailure`
carrying the sender's id is encoded and no channel is created — exactly
when `max_packet_size < 9` or `max_packet_size > 2 ^ 31` (strictly
greater); every `max_packet_size` in the closed interval `[9, 2 ^ 31]`,
including `2 ^ 31` itself, passes the check and an inbound channel is
created. -/
theorem C1_theorem (st : mux.sessionState) (sid ws mps : Nat) (accepted : Bool) :
    (mps < mux.minPacketLength ∨ mps > mux.maxPacketLength →
      mux.handleOpen st sid ws mps accepted = (st, .openFailure sid)) ∧
    (mux.minPacketLength ≤ mps ∧ mps ≤ mux.maxPacketLength →
      (mux.handleOpen st sid ws mps accepted).1.chans.length =
        st.chans.length + 1) := by
  constructor
  · intro h
    unfold mux.handleOpen
    rw [if_pos h]
  · rintro ⟨h1, h2⟩
    unfold mux.handleOpen
    rw [if_neg (by omega)]
    cases accepted <;> simp [mux.newChannel]

/-- Claim C1, witness for the amended theorem at `mps = 8` (rejected) and
`mps = 9` (accepted). -/
theorem C1_witness :
    (8 < mux.minPacketLength ∨ 8 > mux.maxPacketLength) ∧
    mux.handleOpen {} 5 0 8 true = ({}, .openFailure 5) ∧
    (mux.minPacketLength ≤ 9 ∧ 9 ≤ mux.maxPacketLength) ∧
    (mux.handleOpen {} 5 0 9 true).1.chans.length =
      (mux.sessionState.chans {}).length + 1 := by
  refine ⟨by decide, (C1_theorem {} 5 0 8 true).1 (by decide), by decide, ?_⟩
  exact (C1_theorem {} 5 0 9 true).2 (by decide)

/-- Claim C2, counterexample: the claim states that an inbound channel not
consumed by `Accept` within the open timeout is dropped from the session's
channel table.  On the code the timeout arm of `handleOpen` only encodes
`OpenFailure`; it never calls a remove on the table, so after a timed-out
open of a valid `Open` frame (here `max_packet_size = 1024`) the channel
is still in the table. -/
theorem C2_counterexample :
    (mux.handleOpen {} 5 7 1024 false).2 = mux.Frame.openFailure 5 ∧
    (mux.handleOpen {} 5 7 1024 false).1.chans ≠ [] := by
  constructor <;> decide

/-- Claim C2, amended: for every inbound channel created from a valid
`Open` frame that is not consumed by `Accept` within the 30-second open
timeout, the session sends `OpenFailure` to the peer, but the channel is
not removed: it remains in the session's channel table (the table has
grown by one, and it contains an inbound channel whose `remoteId` is the
sender's id). -/
theorem C2_theorem (st : mux.sessionState) (sid ws mps : Nat)
    (h : mux.minPacketLength ≤ mps ∧ mps ≤ mux.maxPacketLength) :
    (mux.handleOpen st sid ws mps false).2 = mux.Frame.openFailure sid ∧
    (mux.handleOpen st sid ws mps false).1.chans.length = st.chans.length + 1 ∧
    ∃ c ∈ (mux.handleOpen st sid ws mps false).1.chans,
      c.direction = .channelInbound ∧ c.remoteId = sid := by
  obtain ⟨h1, h2⟩ := h
  unfold mux.handleOpen
  rw [if_neg (by omega)]
  refine ⟨rfl, by simp [mux.newChannel], ?_⟩
  refine ⟨_, List.mem_map_of_mem _ (List.mem_append_right _ (List.mem_singleton.mpr rfl)), ?_⟩
  simp [mux.newChannel]

/-- Claim C2, witness for the amended theorem at a concrete valid open
(`sid = 5`, `ws = 7`, `mps = 1024`) that times out. -/
theorem C2_witness :
    (mux.minPacketLength ≤ 1024 ∧ 1024 ≤ mux.maxPacketLength) ∧
    ((mux.handleOpen {} 5 7 1024 false).2 = mux.Frame.openFailure 5 ∧
     (mux.handleOpen {} 5 7 1024 false).1.chans.length =
       (mux.sessionState.chans {}).length + 1 ∧
     ∃ c ∈ (mux.handleOpen {} 5 7 1024 false).1.chans,
       c.direction = .channelInbound ∧ c.remoteId = 5) :=
  ⟨by decide, C2_theorem {} 5 7 1024 (by decide)⟩

/-- Claim C3: in `responder.respond` (the common body of `Return` and
`Continue`), a single error value is replaced by `[nil]` with the error's
message stored in the header's error field; zero values are replaced by
`[nil]`; and for every argument list, at least one framed value follows
the encoded response header. -/
theorem C3_theorem (r : rpc.responder) (m : String)
    (values : List rpc.GoVal) (continue_ : Bool) :
    ((rpc.respond r [rpc.GoVal.goErr m] continue_).2.1 =
      [rpc.Sent.header { r.header with error := some m, cont := continue_ },
       rpc.Sent.value .goNil]) ∧
    ((rpc.respond r [] continue_).2.1 =
      [rpc.Sent.header { r.header with cont := continue_ },
       rpc.Sent.value .goNil]) ∧
    (∃ tl, (rpc.respond r values continue_).2.1 =
      rpc.Sent.header (rpc.respond r values continue_).1.header :: tl ∧ tl ≠ []) := by
  refine ⟨rfl, rfl, ?_⟩
  match values with
  | [] => exact ⟨[rpc.Sent.value .goNil], rfl, by simp⟩
  | [rpc.GoVal.goNil] => exact ⟨[rpc.Sent.value .goNil], rfl, by simp⟩
  | [rpc.GoVal.goErr a] => exact ⟨[rpc.Sent.value .goNil], rfl, by simp⟩
  | [rpc.GoVal.goVal a] => exact ⟨[rpc.Sent.value (.goVal a)], rfl, by simp⟩
  | a :: b :: tl =>
    refine ⟨(rpc.Sent.value a) :: (rpc.Sent.value b) :: tl.map rpc.Sent.value, ?_, by simp⟩
    cases a <;> rfl

/-- Claim C4: `Return` encodes a header with the continue flag false, then
encodes each value (the passed values in order when no substitution
applies; the substituted `[nil]` when zero values or a single error were
passed, the latter also storing the message in the header), then closes
the channel.  `Continue` encodes the header with the continue flag true,
encodes the values the same way, does not close the channel, and returns
the underlying channel to the handler.  When the handler returns with the
responder still unresponded, `Server.respond`'s epilogue auto-issues
`Return()` with no values — encoding a continue-false header followed by
the substituted nil value — and the channel ends up closed. -/
theorem C4_theorem (r : rpc.responder) (v : List rpc.GoVal) (m : String) :
    ((rpc.Return r v).1.header.cont = false ∧
     (rpc.Return r v).2.2 = true ∧
     (v ≠ [] → rpc.isSingleError v = false →
       (rpc.Return r v).2.1 =
         rpc.Sent.header { r.header with cont := false } :: v.map rpc.Sent.value) ∧
     (rpc.Return r []).2.1 =
       [rpc.Sent.header { r.header with cont := false }, rpc.Sent.value .goNil] ∧
     (rpc.Return r [rpc.GoVal.goErr m]).2.1 =
       [rpc.Sent.header { r.header with error := some m, cont := false },
        rpc.Sent.value .goNil]) ∧
    ((rpc.Continue r v).1 = r.ch ∧
     (rpc.Continue r v).2.1.header.cont = true ∧
     (rpc.Continue r v).2.2.2 = false ∧
     (v ≠ [] → rpc.isSingleError v = false →
       (rpc.Continue r v).2.2.1 =
         rpc.Sent.header { r.header with cont := true } :: v.map rpc.Sent.value) ∧
     (rpc.Continue r []).2.2.1 =
       [rpc.Sent.header { r.header with cont := true }, rpc.Sent.value .goNil] ∧
     (rpc.Continue r [rpc.GoVal.goErr m]).2.2.1 =
       [rpc.Sent.header { r.header with error := some m, cont := true },
        rpc.Sent.value .goNil]) ∧
    (rpc.serverFinish { r with responded := false } =
      ((rpc.Return { r with responded := false } []).2.1, true) ∧
     (rpc.Return { r with responded := false } []).2.1 =
       [rpc.Sent.header { r.header with cont := false }, rpc.Sent.value .goNil]) := by
  have hAll : ∀ (c : Bool) (w : List rpc.GoVal), w ≠ [] → rpc.isSingleError w = false →
      (rpc.respond r w c).2.1 =
        rpc.Sent.header { r.header with cont := c } :: w.map rpc.Sent.value := by
    intro c w hne hns
    match w with
    | [] => exact absurd rfl hne
    | [rpc.GoVal.goNil] => rfl
    | [rpc.GoVal.goErr a] => simp [rpc.isSingleError] at hns
    | [rpc.GoVal.goVal a] => rfl
    | a :: b :: tl => cases a <;> rfl
  have hCont : ∀ (c : Bool), (rpc.respond r v c).1.header.cont = c := by
    intro c
    cases v with
    | nil => rfl
    | cons a tl => cases a <;> cases tl <;> rfl
  exact ⟨⟨hCont false, rfl, hAll false v, rfl, rfl⟩,
    ⟨rfl, hCont true, rfl, hAll true v, rfl, rfl⟩, rfl, rfl⟩

/-- Claim C4, witness at a concrete two-value argument list, exercising
the "encodes each value" conjuncts of both `Return` and `Continue`. -/
theorem C4_witness :
    ([rpc.GoVal.goVal 3, rpc.GoVal.goVal 4] ≠ ([] : List rpc.GoVal)) ∧
    rpc.isSingleError [rpc.GoVal.goVal 3, rpc.GoVal.goVal 4] = false ∧
    (rpc.Return {} [rpc.GoVal.goVal 3, rpc.GoVal.goVal 4]).2.1 =
      rpc.Sent.header { (rpc.responder.header {}) with cont := false } ::
        ([rpc.GoVal.goVal 3, rpc.GoVal.goVal 4].map rpc.Sent.value) ∧
    (rpc.Continue {} [rpc.GoVal.goVal 3, rpc.GoVal.goVal 4]).2.2.1 =
      rpc.Sent.header { (rpc.responder.header {}) with cont := true } ::
        ([rpc.GoVal.goVal 3, rpc.GoVal.goVal 4].map rpc.Sent.value) :=
  ⟨by decide, by decide,
   (C4_theorem {} [rpc.GoVal.goVal 3, rpc.GoVal.goVal 4] "boom").1.2.2.1
     (by decide) (by decide),
   (C4_theorem {} [rpc.GoVal.goVal 3, rpc.GoVal.goVal 4] "boom").2.1.2.2.2.1
     (by decide) (by decide)⟩

/-- Claim C5, counterexample: the claim states that a `Send` issued while
the responder is unresponded is not permitted.  On the code,
`responder.Send` is a bare `Encode` with no state check: on the fresh
(unresponded) responder it succeeds and encodes the value. -/
theorem C5_counterexample :
    rpc.isContinued {} = false ∧ rpc.rSend {} (.goVal 0) ≠ none := by
  constructor <;> decide

/-- Claim C5, amended: `responder.Send` performs no state check: for every
responder state — unresponded, returned or continued — it encodes the
given value over the channel and succeeds.  The restriction to use `Send`
only after `Continue` is stated in the interface documentation but is not
enforced by the responder. -/
theorem C5_theorem (r : rpc.responder) (v : rpc.GoVal) :
    rpc.rSend r v = some [rpc.Sent.value v] := rfl

/-- Claim C6: `session.Open`'s outcomes — on `OpenConfirm` it returns the
newly allocated outbound channel and no error; on `OpenFailure` it returns
the "channel open failed" error; on a nil message from the channel inbox
it returns the "closed" error (`net.ErrClosed`); and on context
cancellation it returns the context's error verbatim. -/
theorem C6_theorem (st : mux.sessionState) (cid sid ws mps : Nat) (e : mux.GoErr) :
    (∃ c, (mux.sessionOpen st (.recv (some (.openConfirm cid sid ws mps)))).2.2 =
        .ok c ∧ c.direction = .channelOutbound ∧
        c.maxIncomingPayload = mux.channelMaxPacket) ∧
    ((mux.sessionOpen st (.recv (some (.openFailure cid)))).2.2 =
      .error .openFailedRemote) ∧
    ((mux.sessionOpen st (.recv none)).2.2 = .error .errClosed) ∧
    ((mux.sessionOpen st (.ctxDone e)).2.2 = .error e) :=
  ⟨⟨_, rfl, rfl, rfl⟩, rfl, rfl, rfl⟩

/-- Claim C7: the exit sequence of `session.loop` empties the channel
table, runs each dropped channel's close routine, then closes the
transport, then signals the close channel — on which an `Accept` returns
end-of-stream — and finally stores the terminating error, which `Wait`
returns. -/
theorem C7_theorem (st : mux.sessionState) (e : String) :
    (mux.loopExit st e).1.chans = [] ∧
    ((mux.loopExit st e).2 =
      st.chans.map (fun c => mux.teardownEvent.chanClose c.localId) ++
        [mux.teardownEvent.transportClose, mux.teardownEvent.signalClose,
         mux.teardownEvent.storeErr]) ∧
    (mux.loopExit st e).1.transportClosed = true ∧
    (mux.loopExit st e).1.closeSignaled = true ∧
    mux.sessionWait (mux.loopExit st e).1 = some e ∧
    mux.sessionAccept .closeFired = .error .eof :=
  ⟨rfl, rfl, rfl, rfl, rfl, rfl⟩

/-- Claim C8: in `Server.Call`, when the context is cancelled before the
call completes, the watcher goroutine closes the opened channel, and
`Server.Call` returns the context's error — taking precedence over
whatever error the inner `call` produced. -/
theorem C8_theorem (ch : Nat) (ctxE : String)
    (callResp : Option Nat) (callErr : Option mux.GoErr) :
    rpc.serverCall (.ok ch) true ctxE callResp callErr =
      (callResp, some (.ctxErr ctxE), true) :=
  rfl

/-- Claim C9: `mux.New` on a nil transport returns nil without starting a
read loop; on every non-nil transport it returns a non-nil session whose
read loop has been started. -/
theorem C9_theorem :
    mux.New none = none ∧
    ∀ t : Nat, ∃ s, mux.New (some t) = some s ∧ s.loopStarted = true :=
  ⟨rfl, fun _ => ⟨_, rfl, rfl⟩⟩

/-- Claim C10: `Server.Respond` with a nil codec panics with the message
"rpc.Respond: nil codec" before entering the accept loop (so before any
channel is accepted); with a non-nil codec the panic branch is not taken
and the accept loop is entered. -/
theorem C10_theorem :
    rpc.serverRespondStart true = .panicked "rpc.Respond: nil codec" ∧
    rpc.serverRespondStart false = .acceptLoop :=
  ⟨rfl, rfl⟩

end Claims
